import Mathlib

/-!
Verification of the Kestrel distributed ID generator (src/src/index.ts and
src/src/scripts/generateIds.lua).

The embedding models:
  * the bit-packing constants and the encode step of getIds (src/src/index.ts,
    lines 255-268 and 705-728);
  * the static decoder decodeIds (lines 810-848), including the twos-complement
    semantics of JavaScript BigInt bitwise operators on arbitrary integers;
  * the atomic allocation Lua script generateIds.lua as a state transformer over
    the Redis keys it touches;
  * the getIds facade combining both (lines 673-737);
  * the default reconnect-on-error predicate (lines 227-232 and 300-309);
  * the close() lifecycle method (lines 856-890) together with the Node
    EventEmitter rule that emitting an error event with no error listener throws.

Numbers are modeled as unbounded Int/Nat: every quantity involved stays far below
2^53, where JavaScript number arithmetic used by the source is exact, and the id
arithmetic itself is done by the source through BigInt / big-integer, which is
arbitrary precision.
-/

namespace Kestrel

/-! ### Constants (src/src/index.ts lines 255-268) -/

/-- Custom epoch in seconds (src line 257). -/
def CUSTOM_EPOCH : Int := 1451566800

def LOGICAL_SHARD_ID_BITS : Nat := 10

def SEQUENCE_BITS : Nat := 12

/-- TIMESTAMP_SHIFT = SEQUENCE_BITS + LOGICAL_SHARD_ID_BITS = 22. -/
def TIMESTAMP_SHIFT : Nat := SEQUENCE_BITS + LOGICAL_SHARD_ID_BITS

/-- LOGICAL_SHARD_ID_SHIFT = SEQUENCE_BITS = 12. -/
def LOGICAL_SHARD_ID_SHIFT : Nat := SEQUENCE_BITS

/-- MAX_SEQUENCE = ~(-1 << 12) = 2^12 - 1 = 4095. -/
def MAX_SEQUENCE : Int := 2 ^ SEQUENCE_BITS - 1

/-- MAX_LOGICAL_SHARD_ID = ~(-1 << 10) = 2^10 - 1 = 1023. -/
def MAX_LOGICAL_SHARD_ID : Int := 2 ^ LOGICAL_SHARD_ID_BITS - 1

def MIN_LOGICAL_SHARD_ID : Int := 1

/-- MAX_BATCH_SIZE = MAX_SEQUENCE + 1 = 4096. -/
def MAX_BATCH_SIZE : Int := MAX_SEQUENCE + 1

def ONE_MILLI_IN_MICRO_SECS : Int := 1000

/-! ### Twos-complement bitwise operations on unbounded integers

JavaScript BigInt (used by decodeIds) and the big-integer library (used by the
encode step of getIds) give bitwise operators twos-complement semantics on
arbitrary-precision integers: a negative integer -(m+1) behaves as the bitwise
complement of m. The three functions below spell that out by cases on sign. -/

/-- Twos-complement bitwise OR of arbitrary integers. -/
def torInt (a b : Int) : Int :=
  if 0 ≤ a then
    if 0 ≤ b then ((a.toNat ||| b.toNat : Nat) : Int)
    else -(((Nat.ldiff (-(b + 1)).toNat a.toNat : Nat) : Int) + 1)
  else
    if 0 ≤ b then -(((Nat.ldiff (-(a + 1)).toNat b.toNat : Nat) : Int) + 1)
    else -(((((-(a + 1)).toNat &&& (-(b + 1)).toNat : Nat)) : Int) + 1)

/-- Twos-complement bitwise AND of arbitrary integers. -/
def tandInt (a b : Int) : Int :=
  if 0 ≤ a then
    if 0 ≤ b then ((a.toNat &&& b.toNat : Nat) : Int)
    else ((Nat.ldiff a.toNat (-(b + 1)).toNat : Nat) : Int)
  else
    if 0 ≤ b then ((Nat.ldiff b.toNat (-(a + 1)).toNat : Nat) : Int)
    else -(((((-(a + 1)).toNat ||| (-(b + 1)).toNat : Nat)) : Int) + 1)

/-- Arithmetic (sign-preserving) right shift of an arbitrary integer,
the semantics of BigInt >> in JavaScript. -/
def tshrInt (a : Int) (n : Nat) : Int :=
  if 0 ≤ a then ((a.toNat >>> n : Nat) : Int)
  else -((((-(a + 1)).toNat >>> n : Nat) : Int) + 1)

/-! ### The decoder (src/src/index.ts lines 810-848)

decodeIds converts each input to BigInt and extracts
  sequence       = id & 0xFFF            (12-bit mask)
  logicalShardId = (id >> 12) & 0x3FF    (10-bit mask)
  timestamp      = id >> 22
  timestampMs    = timestamp + CUSTOM_EPOCH * 1000
(createdAt is just the Date built from timestampMs and is not modeled). -/

structure DecodedId where
  timestamp : Int
  timestampMs : Int
  logicalShardId : Int
  sequence : Int
deriving DecidableEq, Repr

/-- Decode of a single id, the body of the map inside decodeIds. -/
def decodeId (id : Int) : DecodedId :=
  let sequenceMask : Int := 2 ^ SEQUENCE_BITS - 1
  let sequence := tandInt id sequenceMask
  let logicalShardIdMask : Int := 2 ^ LOGICAL_SHARD_ID_BITS - 1
  let logicalShardId := tandInt (tshrInt id LOGICAL_SHARD_ID_SHIFT) logicalShardIdMask
  let timestampSinceEpoch := tshrInt id TIMESTAMP_SHIFT
  let timestampMs := timestampSinceEpoch + CUSTOM_EPOCH * ONE_MILLI_IN_MICRO_SECS
  { timestamp := timestampSinceEpoch
    timestampMs := timestampMs
    logicalShardId := logicalShardId
    sequence := sequence }

/-- decodeIds maps the single-id decode over the list of inputs. -/
def decodeIds (ids : List Int) : List DecodedId :=
  ids.map decodeId

/-! ### The encode step of getIds (src/src/index.ts lines 718-727)

  bigInteger(timestamp - customEpochMs).shiftLeft(TIMESTAMP_SHIFT)
    .or(bigInteger(LOGICAL_SHARD_ID).shiftLeft(LOGICAL_SHARD_ID_SHIFT))
    .or(i)

shiftLeft on big-integer multiplies by the power of two (also for negatives). -/

def encodeIdZ (tsPart shard seq : Int) : Int :=
  torInt (torInt (tsPart * 2 ^ TIMESTAMP_SHIFT) (shard * 2 ^ LOGICAL_SHARD_ID_SHIFT)) seq

/-! ### The allocation script (src/src/scripts/generateIds.lua)

Store state: the three Redis keys the script touches, plus the server clock
returned by TIME. The lock key is modeled as the expiry (in ms) it was set with
when present; the sequence key as the integer it holds (INCRBY treats an absent
key as 0, so absence is modeled by none and read through getD 0); the shard key
as the integer it holds, with absence (or a non-numeric value) as none, which
the script turns into -1 via tonumber(...) or -1. -/

structure Store where
  lock : Option Nat
  sequence : Option Int
  shardId : Option Int
  timeSec : Nat
  timeMicro : Nat
deriving DecidableEq, Repr

inductive ScriptErr where
  /-- error_reply: Cannot generate ID, waiting for lock to expire. -/
  | lockActive
  /-- error_reply: Logical shard ID out of range. -/
  | shardOutOfRange
deriving DecidableEq, Repr

/-- The five-value array returned by the script: start_sequence, end_sequence,
logical_shard_id, and the two TIME components. -/
structure Reply where
  startSeq : Int
  endSeq : Int
  shard : Int
  timeSec : Nat
  timeMicro : Nat
deriving DecidableEq, Repr

/-- The Lua script generateIds.lua as a state transformer, statement by
statement: lock check, INCRBY, start computation, shard read and validation,
wraparound reset and lock set, TIME read, reply. -/
def generateIds (st : Store) (maxSequence minShard maxShard numIds : Int) :
    Except ScriptErr Reply × Store :=
  if st.lock.isSome then
    (.error .lockActive, st)
  else
    let endSeq := st.sequence.getD 0 + numIds
    let st1 : Store := { st with sequence := some endSeq }
    let startSeq := endSeq - numIds + 1
    let shard := st1.shardId.getD (-1)
    if shard < minShard ∨ maxShard < shard then
      (.error .shardOutOfRange, st1)
    else if maxSequence ≤ endSeq then
      let st2 : Store := { st1 with sequence := some (-1), lock := some 500 }
      (.ok { startSeq := startSeq, endSeq := maxSequence, shard := shard,
             timeSec := st2.timeSec, timeMicro := st2.timeMicro }, st2)
    else
      (.ok { startSeq := startSeq, endSeq := endSeq, shard := shard,
             timeSec := st1.timeSec, timeMicro := st1.timeMicro }, st1)

/-! ### The getIds facade (src/src/index.ts lines 673-737) -/

/-- batch = Math.min(Math.abs(count), MAX_BATCH_SIZE). -/
def clampBatch (count : Int) : Int :=
  min |count| MAX_BATCH_SIZE

/-- Math.trunc(TIME_SECONDS * 1000 + TIME_MICROSECONDS / 1000) on the
nonnegative values returned by TIME. -/
def storeTimeMs (timeSec timeMicro : Nat) : Nat :=
  timeSec * 1000 + timeMicro / 1000

/-- The ascending loop for (let i = START_SEQUENCE; i <= END_SEQUENCE; i++)
as the list of visited values. -/
def intRangeIncl (start stop : Int) : List Int :=
  (List.range (stop + 1 - start).toNat).map fun k : Nat => start + (k : Int)

/-- getIds: clamp the batch, run the script, and encode one id per sequence
value in the returned range. A script error is caught, wrapped and rethrown
(modeled by propagating it in the Except). -/
def getIds (st : Store) (count : Int) : Except ScriptErr (List Int) × Store :=
  let batch := clampBatch count
  match generateIds st MAX_SEQUENCE MIN_LOGICAL_SHARD_ID MAX_LOGICAL_SHARD_ID batch with
  | (.error e, st1) => (.error e, st1)
  | (.ok r, st1) =>
      let timestamp := storeTimeMs r.timeSec r.timeMicro
      let customEpochMs := CUSTOM_EPOCH * ONE_MILLI_IN_MICRO_SECS
      let ids := (intRangeIncl r.startSeq r.endSeq).map fun i =>
        encodeIdZ ((timestamp : Int) - customEpochMs) r.shard i
      (.ok ids, st1)

/-! ### The default reconnect-on-error predicate (src/src/index.ts 227-232, 300-309) -/

def NOAUTH : String := "NOAUTH Authentication required"

def WRONGPASS : String := "WRONGPASS invalid username-password pair or user is disabled."

def ENOTFOUND : String := "getaddrinfo ENOTFOUND invalid-host"

def ECONNREFUSED : String := "getaddrinfo ECONNREFUSED"

/-- The nonRetryableErrors record built inside defaultReconnectOnError: each of
the four RedisNonRetryableErrors messages maps to false. -/
def nonRetryableErrors : List (String × Bool) :=
  [(NOAUTH, false), (WRONGPASS, false), (ENOTFOUND, false), (ECONNREFUSED, false)]

/-- The result of the JS expression nonRetryableErrors[error.message] ?? true.
A message that is an own key of the object literal yields its boolean; a
message naming an inherited Object.prototype property yields that property (a
function, or an object for the proto accessor), which is not null/undefined,
so the ?? operator keeps it: a truthy value that is not the boolean true;
any other message yields undefined, which ?? replaces with true. -/
inductive ReconnectOnErrorResult where
  | val (b : Bool)
  | protoProperty (name : String)
deriving DecidableEq, Repr

/-- The property names every plain JS object literal inherits from
Object.prototype. -/
def objectPrototypeProps : List String :=
  ["constructor", "hasOwnProperty", "isPrototypeOf", "propertyIsEnumerable",
   "toLocaleString", "toString", "valueOf", "__proto__", "__defineGetter__",
   "__defineSetter__", "__lookupGetter__", "__lookupSetter__"]

/-- defaultReconnectOnError: nonRetryableErrors[error.message] ?? true, with
the prototype chain of the object literal modeled. -/
def defaultReconnectOnError (message : String) : ReconnectOnErrorResult :=
  match nonRetryableErrors.lookup message with
  | some b => .val b
  | none =>
      if message ∈ objectPrototypeProps then .protoProperty message
      else .val true

/-- startsWithSeq s p: the character list p is an initial segment of s. -/
def startsWithSeq : List Char → List Char → Bool
  | _, [] => true
  | [], _ :: _ => false
  | c :: s, p :: ps => c == p && startsWithSeq s ps

/-- containsSeq s p: the character list p occurs contiguously inside s. -/
def containsSeq : List Char → List Char → Bool
  | [], pat => startsWithSeq [] pat
  | c :: s, pat => startsWithSeq (c :: s) pat || containsSeq s pat

/-- JavaScript String.prototype.includes. -/
def stringIncludes (s pat : String) : Bool :=
  containsSeq s.data pat.data

/-- The error-message classification inside Kestrel.initialize
(src/src/index.ts lines 424-449): substring checks via message.includes, in
source order, falling back to the raw message (the caller then prepends the
Failed-to-initialize prefix, which is not modeled). -/
def classifyInitError (message : String) : String :=
  if stringIncludes message "NOAUTH" then "No authentication provided."
  else if stringIncludes message "WRONGPASS" then
    "Invalid username-password pair or user is disabled."
  else if stringIncludes message "getaddrinfo ENOTFOUND" ||
      stringIncludes message "getaddrinfo EAI_AGAIN invalid-host" then
    "Invalid host."
  else if stringIncludes message "getaddrinfo ECONNREFUSED" then
    "Connection refused."
  else message

/-! ### close() (src/src/index.ts lines 856-890)

The handle is the Kestrel EventEmitter: its private client reference (null after
a close) and its registered listeners, of which the error listeners matter
because Node EventEmitter throws when an error event is emitted with no error
listener. The quit/disconnect calls on the detached client are modeled as
succeeding; they do not touch the handle. -/

structure RedisClient where
  status : String
  listeners : Nat
deriving DecidableEq, Repr

structure KestrelHandle where
  client : Option RedisClient
  listeners : Nat
  errorListeners : Nat
deriving DecidableEq, Repr

inductive CloseOutcome where
  | completed
  /-- Node EventEmitter semantics: emit of an error event with no registered
  error listener throws (ERR_UNHANDLED_ERROR for a non-Error payload). -/
  | threwUnhandledError
deriving DecidableEq, Repr

/-- close(): when the client reference is already null, emit an error event and
return (the emit throws when the handle has no error listener); otherwise null
the reference, strip the client listeners, quit when ready/connect, always
disconnect, emit a disconnected event (never throws: not an error event), and
finally removeAllListeners() on the handle itself. -/
def close (k : KestrelHandle) : CloseOutcome × KestrelHandle :=
  match k.client with
  | none =>
      if k.errorListeners = 0 then (.threwUnhandledError, k)
      else (.completed, k)
  | some _ =>
      (.completed, { client := none, listeners := 0, errorListeners := 0 })

/-- A handle as it stands after a successful initialization with a user error
listener attached: live client in the ready status, a few listeners. -/
def readyHandle : KestrelHandle :=
  { client := some { status := "ready", listeners := 2 },
    listeners := 3, errorListeners := 1 }

/-! ### Helper lemmas about the twos-complement operations -/

lemma ldiff_le_left (x y : Nat) : Nat.ldiff x y ≤ x := by
  refine Nat.le_of_testBit fun i h => ?_
  rw [Nat.testBit_ldiff] at h
  simp only [Bool.and_eq_true] at h
  exact h.1

lemma torInt_natCast (a b : Nat) :
    torInt (a : Int) (b : Int) = ((a ||| b : Nat) : Int) := by
  simp [torInt]

lemma tandInt_natCast (a b : Nat) :
    tandInt (a : Int) (b : Int) = ((a &&& b : Nat) : Int) := by
  simp [tandInt]

lemma tshrInt_natCast (a : Nat) (n : Nat) :
    tshrInt (a : Int) n = ((a >>> n : Nat) : Int) := by
  simp [tshrInt]

lemma tandInt_bounds_right (a b : Int) (hb : 0 ≤ b) :
    0 ≤ tandInt a b ∧ tandInt a b ≤ b := by
  unfold tandInt
  by_cases ha : 0 ≤ a
  · rw [if_pos ha, if_pos hb]
    have h1 : a.toNat &&& b.toNat ≤ b.toNat := Nat.and_le_right
    have h2 : ((b.toNat : Int)) = b := Int.toNat_of_nonneg hb
    constructor
    · exact Int.natCast_nonneg _
    · omega
  · rw [if_neg ha, if_pos hb]
    have h1 : Nat.ldiff b.toNat (-(a + 1)).toNat ≤ b.toNat := ldiff_le_left _ _
    have h2 : ((b.toNat : Int)) = b := Int.toNat_of_nonneg hb
    constructor
    · exact Int.natCast_nonneg _
    · omega

/-- On a nonnegative id the decoder computes plain mod/div field extraction. -/
lemma decodeId_natCast (N : Nat) :
    decodeId (N : Int) =
      { timestamp := ((N / 2 ^ 22 : Nat) : Int),
        timestampMs := ((N / 2 ^ 22 : Nat) : Int) + 1451566800000,
        logicalShardId := ((N / 2 ^ 12 % 2 ^ 10 : Nat) : Int),
        sequence := ((N % 2 ^ 12 : Nat) : Int) } := by
  have hseq : (2 : Int) ^ SEQUENCE_BITS - 1 = ((4095 : Nat) : Int) := by
    norm_num [SEQUENCE_BITS]
  have hshardMask : (2 : Int) ^ LOGICAL_SHARD_ID_BITS - 1 = ((1023 : Nat) : Int) := by
    norm_num [LOGICAL_SHARD_ID_BITS]
  have hand1 : N &&& 4095 = N % 2 ^ 12 := by
    have := Nat.and_pow_two_sub_one_eq_mod N 12
    norm_num at this
    norm_num [this]
  have hand2 : N >>> 12 &&& 1023 = N / 2 ^ 12 % 2 ^ 10 := by
    rw [Nat.shiftRight_eq_div_pow]
    have h := Nat.and_pow_two_sub_one_eq_mod (N / 2 ^ 12) 10
    norm_num at h ⊢
    exact h
  unfold decodeId
  dsimp only
  rw [hseq, hshardMask]
  rw [show LOGICAL_SHARD_ID_SHIFT = 12 from rfl, show TIMESTAMP_SHIFT = 22 from rfl]
  simp only [tshrInt_natCast, tandInt_natCast]
  rw [Nat.shiftRight_eq_div_pow N 22, hand1, hand2]
  simp [CUSTOM_EPOCH, ONE_MILLI_IN_MICRO_SECS]

/-- On nonnegative fields within their widths, the encode step packs the three
fields additively. -/
lemma encodeIdZ_natCast (T s q : Nat) (hs : s < 2 ^ 10) (hq : q < 2 ^ 12) :
    encodeIdZ (T : Int) (s : Int) (q : Int) =
      ((T * 2 ^ 22 + s * 2 ^ 12 + q : Nat) : Int) := by
  have hs12 : s * 2 ^ 12 < 2 ^ 22 := by
    norm_num at hs ⊢
    omega
  have e1 : (T * 2 ^ 22) ||| (s * 2 ^ 12) = T * 2 ^ 22 + s * 2 ^ 12 := by
    calc (T * 2 ^ 22) ||| (s * 2 ^ 12) = (2 ^ 22 * T) ||| (s * 2 ^ 12) := by
          rw [Nat.mul_comm]
      _ = 2 ^ 22 * T + s * 2 ^ 12 := (Nat.mul_add_lt_is_or hs12 T).symm
      _ = T * 2 ^ 22 + s * 2 ^ 12 := by rw [Nat.mul_comm]
  have e2 : (T * 2 ^ 22 + s * 2 ^ 12) ||| q = T * 2 ^ 22 + s * 2 ^ 12 + q := by
    have h : T * 2 ^ 22 + s * 2 ^ 12 = 2 ^ 12 * (T * 2 ^ 10 + s) := by ring
    calc (T * 2 ^ 22 + s * 2 ^ 12) ||| q
        = (2 ^ 12 * (T * 2 ^ 10 + s)) ||| q := by rw [h]
      _ = 2 ^ 12 * (T * 2 ^ 10 + s) + q := (Nat.mul_add_lt_is_or hq _).symm
      _ = T * 2 ^ 22 + s * 2 ^ 12 + q := by ring
  have c1 : (T : Int) * 2 ^ TIMESTAMP_SHIFT = ((T * 2 ^ 22 : Nat) : Int) := by
    rw [show TIMESTAMP_SHIFT = 22 from rfl]; push_cast; ring
  have c2 : (s : Int) * 2 ^ LOGICAL_SHARD_ID_SHIFT = ((s * 2 ^ 12 : Nat) : Int) := by
    rw [show LOGICAL_SHARD_ID_SHIFT = 12 from rfl]; push_cast; ring
  unfold encodeIdZ
  rw [c1, c2, torInt_natCast, e1, torInt_natCast, e2]

/-- Roundtrip at the level of integer arguments: decoding an encoded id recovers
the three fields whenever shard and sequence are within their bit widths and the
timestamp part is nonnegative. -/
lemma decodeId_encodeIdZ (T s q : Int) (hT : 0 ≤ T) (hs0 : 0 ≤ s) (hs : s ≤ 1023)
    (hq0 : 0 ≤ q) (hq : q ≤ 4095) :
    decodeId (encodeIdZ T s q) =
      { timestamp := T, timestampMs := T + 1451566800000,
        logicalShardId := s, sequence := q } := by
  obtain ⟨TN, rfl⟩ : ∃ n : Nat, (n : Int) = T := ⟨T.toNat, Int.toNat_of_nonneg hT⟩
  obtain ⟨sN, rfl⟩ : ∃ n : Nat, (n : Int) = s := ⟨s.toNat, Int.toNat_of_nonneg hs0⟩
  obtain ⟨qN, rfl⟩ : ∃ n : Nat, (n : Int) = q := ⟨q.toNat, Int.toNat_of_nonneg hq0⟩
  have hsN : sN < 2 ^ 10 := by omega
  have hqN : qN < 2 ^ 12 := by omega
  rw [encodeIdZ_natCast TN sN qN hsN hqN, decodeId_natCast]
  have h1 : (TN * 2 ^ 22 + sN * 2 ^ 12 + qN) / 2 ^ 22 = TN := by omega
  have h2 : (TN * 2 ^ 22 + sN * 2 ^ 12 + qN) / 2 ^ 12 % 2 ^ 10 = sN := by omega
  have h3 : (TN * 2 ^ 22 + sN * 2 ^ 12 + qN) % 2 ^ 12 = qN := by omega
  rw [h1, h2, h3]

lemma length_intRangeIncl (a b : Int) :
    (intRangeIncl a b).length = (b + 1 - a).toNat := by
  unfold intRangeIncl
  rw [List.length_map, List.length_range]

lemma mem_intRangeIncl {a b i : Int} (h : i ∈ intRangeIncl a b) : a ≤ i ∧ i ≤ b := by
  unfold intRangeIncl at h
  rcases List.mem_map.mp h with ⟨k, hk, rfl⟩
  rw [List.mem_range] at hk
  omega

lemma pairwise_intRangeIncl (a b : Int) : (intRangeIncl a b).Pairwise (· < ·) := by
  unfold intRangeIncl
  refine List.Pairwise.map (fun k : Nat => a + (k : Int))
    (fun x y hxy => ?_) (List.pairwise_lt_range _)
  show a + (x : Int) < a + (y : Int)
  omega

/-! ### Claim theorems -/

/-- Claim C1: for every timestamp in [0, 2^41-1], shard in [0, 1023] and
sequence in [0, 4095], decoding the identifier built by the encoding step of
getIds with decodeIds returns exactly that timestamp, shard and sequence. -/
theorem decode_encode_roundtrip (ts shard seq : Int)
    (hts0 : 0 ≤ ts) (_hts : ts ≤ 2 ^ 41 - 1)
    (hshard0 : 0 ≤ shard) (hshard : shard ≤ 1023)
    (hseq0 : 0 ≤ seq) (hseq : seq ≤ 4095) :
    decodeIds [encodeIdZ ts shard seq] =
      [{ timestamp := ts, timestampMs := ts + 1451566800000,
         logicalShardId := shard, sequence := seq }] := by
  unfold decodeIds
  rw [List.map_singleton, decodeId_encodeIdZ ts shard seq hts0 hshard0 hshard hseq0 hseq]

/-- Witness for C1 at the concrete triple (5, 3, 7). -/
theorem decode_encode_roundtrip_witness :
    decodeIds [encodeIdZ 5 3 7] =
      [{ timestamp := 5, timestampMs := 1451566800005,
         logicalShardId := 3, sequence := 7 }] := by
  have h := decode_encode_roundtrip 5 3 7 (by norm_num) (by norm_num) (by norm_num)
    (by norm_num) (by norm_num) (by norm_num)
  norm_num at h
  exact h

/-- Claim C7: encoding the triple (1000000, 42, 123) yields the raw id
4194304172155, decodeIds recovers the three fields from it, the unix timestamp
is 1451567800000 ms, and the custom epoch constant is 1451566800 seconds. -/
theorem encode_decode_example_values :
    encodeIdZ 1000000 42 123 = 4194304172155 ∧
    decodeId 4194304172155 =
      { timestamp := 1000000, timestampMs := 1451567800000,
        logicalShardId := 42, sequence := 123 } ∧
    CUSTOM_EPOCH = 1451566800 := by
  refine ⟨?_, ?_, rfl⟩
  · have h := encodeIdZ_natCast 1000000 42 123 (by norm_num) (by norm_num)
    norm_num at h
    exact h
  · have h := decodeId_natCast 4194304172155
    norm_num at h
    exact h

/-- Claim C10: every decodeIds output has sequence in [0, 4095] and
logicalShardId in [0, 1023], for every integer input. -/
theorem decodeIds_field_bounds (ids : List Int) (d : DecodedId) (hd : d ∈ decodeIds ids) :
    0 ≤ d.sequence ∧ d.sequence ≤ 4095 ∧
    0 ≤ d.logicalShardId ∧ d.logicalShardId ≤ 1023 := by
  unfold decodeIds at hd
  rcases List.mem_map.mp hd with ⟨id, _, rfl⟩
  have hm1 : (0 : Int) ≤ 2 ^ SEQUENCE_BITS - 1 := by norm_num [SEQUENCE_BITS]
  have hm2 : (0 : Int) ≤ 2 ^ LOGICAL_SHARD_ID_BITS - 1 := by
    norm_num [LOGICAL_SHARD_ID_BITS]
  have h1 := tandInt_bounds_right id (2 ^ SEQUENCE_BITS - 1) hm1
  have h2 := tandInt_bounds_right (tshrInt id LOGICAL_SHARD_ID_SHIFT)
    (2 ^ LOGICAL_SHARD_ID_BITS - 1) hm2
  unfold decodeId
  dsimp only
  norm_num [SEQUENCE_BITS] at h1
  norm_num [LOGICAL_SHARD_ID_BITS] at h2
  exact ⟨h1.1, h1.2, h2.1, h2.2⟩

/-- Witness for C10 at the concrete input list [-7]. -/
theorem decodeIds_field_bounds_witness :
    0 ≤ (decodeId (-7)).sequence ∧ (decodeId (-7)).sequence ≤ 4095 ∧
    0 ≤ (decodeId (-7)).logicalShardId ∧ (decodeId (-7)).logicalShardId ≤ 1023 :=
  decodeIds_field_bounds [-7] (decodeId (-7)) (by simp [decodeIds])

/-- Claim C5: whenever the allocation lock key exists, the script fails with the
lock-active error and the state (sequence counter, shard key, lock key) is
returned unchanged, for every choice of script arguments. -/
theorem generateIds_lock_active (st : Store) (maxSequence minShard maxShard numIds : Int)
    (hlock : st.lock.isSome) :
    generateIds st maxSequence minShard maxShard numIds = (.error .lockActive, st) := by
  unfold generateIds
  rw [if_pos hlock]

/-- Witness for C5: a store whose lock key is present with a 500 ms expiry. -/
theorem generateIds_lock_active_witness :
    generateIds { lock := some 500, sequence := some 17, shardId := some 3,
                  timeSec := 1700000000, timeMicro := 250000 } 4095 1 1023 5 =
      (.error .lockActive,
       { lock := some 500, sequence := some 17, shardId := some 3,
         timeSec := 1700000000, timeMicro := 250000 }) :=
  generateIds_lock_active _ 4095 1 1023 5 rfl

/-- Claim C3: with the lock absent, a shard identity key that is absent (read
as -1) or out of [1, 1023] makes the script fail with the shard-out-of-range
error while still leaving the sequence counter incremented by the batch size
(no rollback of the INCRBY). -/
theorem generateIds_shard_out_of_range (st : Store) (n : Int)
    (hlock : st.lock = none)
    (hshard : st.shardId.getD (-1) < MIN_LOGICAL_SHARD_ID ∨
      MAX_LOGICAL_SHARD_ID < st.shardId.getD (-1)) :
    generateIds st MAX_SEQUENCE MIN_LOGICAL_SHARD_ID MAX_LOGICAL_SHARD_ID n =
      (.error .shardOutOfRange,
       { st with sequence := some (st.sequence.getD 0 + n) }) := by
  unfold generateIds
  rw [hlock, if_neg (by simp)]
  dsimp only
  rw [if_pos hshard]

/-- Witness for C3: shard key absent, batch of 7, counter moves from 10 to 17. -/
theorem generateIds_shard_out_of_range_witness :
    generateIds { lock := none, sequence := some 10, shardId := none,
                  timeSec := 1700000000, timeMicro := 0 } 4095 1 1023 7 =
      (.error .shardOutOfRange,
       { lock := none, sequence := some 17, shardId := none,
         timeSec := 1700000000, timeMicro := 0 }) := by
  have h := generateIds_shard_out_of_range
    { lock := none, sequence := some 10, shardId := none,
      timeSec := 1700000000, timeMicro := 0 } 7 rfl (by norm_num [MIN_LOGICAL_SHARD_ID])
  norm_num [MAX_SEQUENCE, MIN_LOGICAL_SHARD_ID, MAX_LOGICAL_SHARD_ID, SEQUENCE_BITS,
    LOGICAL_SHARD_ID_BITS] at h
  exact h

/-- Claim C4: with the lock absent and a valid shard, a call whose
post-increment counter reaches at least 4095 resets the sequence key to the
sentinel -1, sets the lock key with a 500 ms expiry, and returns the range
clamped at end = 4095 (start stays at counter + 1). -/
theorem generateIds_wraparound (st : Store) (n s : Int)
    (hlock : st.lock = none)
    (hshard : st.shardId = some s)
    (hs1 : MIN_LOGICAL_SHARD_ID ≤ s) (hs2 : s ≤ MAX_LOGICAL_SHARD_ID)
    (hwrap : MAX_SEQUENCE ≤ st.sequence.getD 0 + n) :
    generateIds st MAX_SEQUENCE MIN_LOGICAL_SHARD_ID MAX_LOGICAL_SHARD_ID n =
      (.ok { startSeq := st.sequence.getD 0 + 1, endSeq := MAX_SEQUENCE, shard := s,
             timeSec := st.timeSec, timeMicro := st.timeMicro },
       { st with sequence := some (-1), lock := some 500 }) := by
  unfold generateIds
  rw [hlock, if_neg (by simp)]
  dsimp only
  rw [hshard]
  dsimp only [Option.getD_some]
  rw [if_neg (by rw [not_or]; exact ⟨not_lt.mpr hs1, not_lt.mpr hs2⟩), if_pos hwrap]
  have hstart : st.sequence.getD 0 + n - n + 1 = st.sequence.getD 0 + 1 := by ring
  rw [hstart]

/-- Claim C2: with the lock absent, a valid shard identity s, a sequence
counter c at or above the sentinel, and a batch size n in [1, 4095] whose call
does not reach the wraparound boundary (c + n < 4095), getIds returns exactly n
identifiers whose decoded sequence fields are exactly c+1, ..., c+n (hence
strictly increasing, in ascending order) and whose decoded shard and timestamp
fields are identical across the batch. The store clock is assumed to be at or
after the custom epoch, as it always is for a live Redis server. -/
theorem getIds_batch_increasing (st : Store) (n c s : Int)
    (hlock : st.lock = none)
    (hseqst : st.sequence = some c)
    (hshard : st.shardId = some s)
    (hs1 : 1 ≤ s) (hs2 : s ≤ 1023)
    (hn1 : 1 ≤ n) (hn2 : n ≤ 4095)
    (hc : -1 ≤ c)
    (hwrap : c + n < 4095)
    (hepoch : 1451566800000 ≤ ((storeTimeMs st.timeSec st.timeMicro : Nat) : Int)) :
    ∃ ids : List Int, (getIds st n).1 = .ok ids ∧
      ids.length = n.toNat ∧
      (decodeIds ids).map DecodedId.sequence = intRangeIncl (c + 1) (c + n) ∧
      ((decodeIds ids).map DecodedId.sequence).Pairwise (· < ·) ∧
      (∀ d ∈ decodeIds ids, d.logicalShardId = s ∧
        d.timestamp = ((storeTimeMs st.timeSec st.timeMicro : Nat) : Int) - 1451566800000) := by
  have hT0 : 0 ≤ ((storeTimeMs st.timeSec st.timeMicro : Nat) : Int) - 1451566800000 := by
    omega
  have hbatch : clampBatch n = n := by
    unfold clampBatch
    rw [abs_of_nonneg (by omega : (0 : Int) ≤ n)]
    norm_num [MAX_BATCH_SIZE, MAX_SEQUENCE, SEQUENCE_BITS]
    omega
  have hscript : generateIds st MAX_SEQUENCE MIN_LOGICAL_SHARD_ID MAX_LOGICAL_SHARD_ID n =
      (.ok { startSeq := c + 1, endSeq := c + n, shard := s,
             timeSec := st.timeSec, timeMicro := st.timeMicro },
       { st with sequence := some (c + n) }) := by
    unfold generateIds
    rw [hlock, if_neg (by simp)]
    dsimp only
    rw [hseqst, hshard]
    dsimp only [Option.getD_some]
    rw [if_neg (by norm_num [MIN_LOGICAL_SHARD_ID, MAX_LOGICAL_SHARD_ID,
          LOGICAL_SHARD_ID_BITS]; omega),
        if_neg (by norm_num [MAX_SEQUENCE, SEQUENCE_BITS]; omega)]
    have hstart : c + n - n + 1 = c + 1 := by ring
    rw [hstart]
  have hget : getIds st n =
      (.ok ((intRangeIncl (c + 1) (c + n)).map fun i =>
        encodeIdZ (((storeTimeMs st.timeSec st.timeMicro : Nat) : Int) - 1451566800000) s i),
       { st with sequence := some (c + n) }) := by
    unfold getIds
    rw [hbatch]
    dsimp only
    rw [hscript]
    dsimp only
    norm_num [CUSTOM_EPOCH, ONE_MILLI_IN_MICRO_SECS]
  have hdec : ∀ i ∈ intRangeIncl (c + 1) (c + n),
      decodeId (encodeIdZ (((storeTimeMs st.timeSec st.timeMicro : Nat) : Int)
          - 1451566800000) s i) =
        { timestamp := ((storeTimeMs st.timeSec st.timeMicro : Nat) : Int) - 1451566800000,
          timestampMs := ((storeTimeMs st.timeSec st.timeMicro : Nat) : Int)
            - 1451566800000 + 1451566800000,
          logicalShardId := s, sequence := i } := by
    intro i hi
    obtain ⟨hi1, hi2⟩ := mem_intRangeIncl hi
    exact decodeId_encodeIdZ _ s i hT0 (by omega) hs2 (by omega) (by omega)
  refine ⟨_, by rw [hget], ?_, ?_, ?_, ?_⟩
  · rw [List.length_map, length_intRangeIncl]
    omega
  · unfold decodeIds
    rw [List.map_map, List.map_map]
    rw [List.map_congr_left (g := id) fun i hi => by simp [Function.comp, hdec i hi]]
    exact List.map_id _
  · rw [show (decodeIds ((intRangeIncl (c + 1) (c + n)).map fun i =>
        encodeIdZ (((storeTimeMs st.timeSec st.timeMicro : Nat) : Int) - 1451566800000) s i)).map
          DecodedId.sequence = intRangeIncl (c + 1) (c + n) from ?_]
    · exact pairwise_intRangeIncl _ _
    · unfold decodeIds
      rw [List.map_map, List.map_map]
      rw [List.map_congr_left (g := id) fun i hi => by simp [Function.comp, hdec i hi]]
      exact List.map_id _
  · intro d hd
    unfold decodeIds at hd
    rw [List.map_map] at hd
    rcases List.mem_map.mp hd with ⟨i, hi, rfl⟩
    simp [Function.comp, hdec i hi]

/-- Witness for C2: counter at 10, shard 3, batch of 4, store clock in 2023. -/
theorem getIds_batch_increasing_witness :
    ∃ ids : List Int,
      (getIds { lock := none, sequence := some 10, shardId := some 3,
                timeSec := 1700000000, timeMicro := 500000 } 4).1 = .ok ids ∧
      ids.length = (4 : Int).toNat ∧
      (decodeIds ids).map DecodedId.sequence = intRangeIncl 11 14 ∧
      ((decodeIds ids).map DecodedId.sequence).Pairwise (· < ·) ∧
      (∀ d ∈ decodeIds ids, d.logicalShardId = 3 ∧
        d.timestamp = ((storeTimeMs 1700000000 500000 : Nat) : Int) - 1451566800000) := by
  have h := getIds_batch_increasing
    { lock := none, sequence := some 10, shardId := some 3,
      timeSec := 1700000000, timeMicro := 500000 } 4 10 3
    rfl rfl rfl (by norm_num) (by norm_num) (by norm_num) (by norm_num)
    (by norm_num) (by norm_num) (by norm_num [storeTimeMs])
  norm_num at h
  exact h

/-- Witness for C4: counter at 4090, batch of 10, shard 3. -/
theorem generateIds_wraparound_witness :
    generateIds { lock := none, sequence := some 4090, shardId := some 3,
                  timeSec := 1700000000, timeMicro := 0 } 4095 1 1023 10 =
      (.ok { startSeq := 4091, endSeq := 4095, shard := 3,
             timeSec := 1700000000, timeMicro := 0 },
       { lock := some 500, sequence := some (-1), shardId := some 3,
         timeSec := 1700000000, timeMicro := 0 }) := by
  have h := generateIds_wraparound
    { lock := none, sequence := some 4090, shardId := some 3,
      timeSec := 1700000000, timeMicro := 0 } 10 3 rfl rfl
    (by norm_num [MIN_LOGICAL_SHARD_ID])
    (by norm_num [MAX_LOGICAL_SHARD_ID, LOGICAL_SHARD_ID_BITS])
    (by norm_num [MAX_SEQUENCE, SEQUENCE_BITS])
  norm_num [MAX_SEQUENCE, SEQUENCE_BITS] at h
  exact h

lemma generateIds_zero_empty (st : Store) (r : Reply) (st1 : Store)
    (h : generateIds st MAX_SEQUENCE MIN_LOGICAL_SHARD_ID MAX_LOGICAL_SHARD_ID 0 =
      (.ok r, st1)) :
    r.endSeq + 1 - r.startSeq ≤ 0 := by
  unfold generateIds at h
  dsimp only at h
  split_ifs at h with h1 h2 h3
  · exact absurd h (by simp)
  · exact absurd h (by simp)
  · simp only [Prod.mk.injEq, Except.ok.injEq] at h
    obtain ⟨rfl, -⟩ := h
    dsimp only
    norm_num [MAX_SEQUENCE, SEQUENCE_BITS] at h3 ⊢
    omega
  · simp only [Prod.mk.injEq, Except.ok.injEq] at h
    obtain ⟨rfl, -⟩ := h
    dsimp only
    omega

/-- Counterexample to C6 as stated: getIds does not clamp the batch size up to
1. At count = 0 the clamp Math.min(Math.abs(0), 4096) yields 0, the script is
invoked with a batch of 0, and the call returns zero identifiers. -/
theorem getIds_zero_count_counterexample :
    clampBatch 0 = 0 ∧ ¬ 1 ≤ clampBatch 0 ∧
    (getIds { lock := none, sequence := some 10, shardId := some 3,
              timeSec := 1000, timeMicro := 0 } 0).1 = .ok [] := by
  refine ⟨by decide, by decide, rfl⟩

/-- Claim C6 (amended): getIds computes the batch as
Math.min(Math.abs(count), 4096): the magnitude is capped at 4096 and every
nonzero count yields a batch in [1, 4096], but a count of 0 is not raised
to 1 - the script is invoked with a batch of 0 and a successful call returns
an empty list of identifiers. -/
theorem getIds_clamp_behavior (count : Int) (st : Store) :
    clampBatch count ≤ 4096 ∧
    (4096 ≤ |count| → clampBatch count = 4096) ∧
    (count ≠ 0 → 1 ≤ clampBatch count) ∧
    (∀ l, (getIds st 0).1 = .ok l → l = []) := by
  have hmax : MAX_BATCH_SIZE = 4096 := by
    norm_num [MAX_BATCH_SIZE, MAX_SEQUENCE, SEQUENCE_BITS]
  refine ⟨?_, ?_, ?_, ?_⟩
  · unfold clampBatch
    rw [hmax]
    exact min_le_right _ _
  · intro h
    unfold clampBatch
    rw [hmax]
    exact min_eq_right h
  · intro h
    unfold clampBatch
    rw [hmax]
    exact le_min (Int.one_le_abs (by omega)) (by norm_num)
  · intro l hl
    unfold getIds at hl
    rw [show clampBatch 0 = 0 from by decide] at hl
    dsimp only at hl
    rcases hgen : generateIds st MAX_SEQUENCE MIN_LOGICAL_SHARD_ID MAX_LOGICAL_SHARD_ID 0
      with ⟨res, st1⟩
    rw [hgen] at hl
    cases res with
    | error e => simp at hl
    | ok r =>
        dsimp only at hl
        have h0 := generateIds_zero_empty st r st1 hgen
        have hempty : intRangeIncl r.startSeq r.endSeq = [] := by
          unfold intRangeIncl
          rw [show (r.endSeq + 1 - r.startSeq).toNat = 0 from by omega]
          rfl
        rw [hempty] at hl
        simp only [List.map_nil, Except.ok.injEq] at hl
        exact hl.symm

/-- Witness for the amended C6 at count = 5000 and a concrete store. -/
theorem getIds_clamp_behavior_witness :
    clampBatch 5000 ≤ 4096 ∧ clampBatch 5000 = 4096 ∧ 1 ≤ clampBatch 5000 ∧
    ([] : List Int) = [] := by
  have h := getIds_clamp_behavior 5000
    { lock := none, sequence := some 10, shardId := some 3,
      timeSec := 1000, timeMicro := 0 }
  exact ⟨h.1, h.2.1 (by decide), h.2.2.1 (by decide), h.2.2.2 [] rfl⟩

/-- Claim C8 fails on the code: the predicate returns false only on the four
exact strings of RedisNonRetryableErrors, so real error messages of the
claimed classes are classified retryable. The message
getaddrinfo ENOTFOUND example.com is an unresolved-host failure - the
classifier inside initialize maps it to the Invalid-host class by substring -
yet defaultReconnectOnError returns true for it, because the ENOTFOUND map
entry hard-codes the hostname invalid-host used by the test suite; likewise a
real connection-refused message (connect ECONNREFUSED 127.0.0.1:6379, the
format Node produces) returns true, since the map entry expects the
getaddrinfo ECONNREFUSED spelling. The four literal strings themselves do
return false, so the intent of the constant is clear and the exact-match
lookup is the slip. -/
theorem defaultReconnectOnError_class_miss :
    classifyInitError "getaddrinfo ENOTFOUND example.com" = "Invalid host." ∧
    defaultReconnectOnError "getaddrinfo ENOTFOUND example.com" = .val true ∧
    defaultReconnectOnError "connect ECONNREFUSED 127.0.0.1:6379" = .val true ∧
    defaultReconnectOnError NOAUTH = .val false ∧
    defaultReconnectOnError WRONGPASS = .val false ∧
    defaultReconnectOnError ENOTFOUND = .val false ∧
    defaultReconnectOnError ECONNREFUSED = .val false := by
  refine ⟨by decide, by decide, by decide, rfl, rfl, rfl, rfl⟩

/-- Claim C9 fails on the code: close is safe on a handle whose client was
never connected, but it is not idempotent. The first close removes every
listener from the handle, so a second close reaches the null-client branch and
emits an error event on a listener-free emitter, which throws under Node
EventEmitter semantics instead of completing; the handle state itself is left
unchanged. Evaluated at a ready handle carrying listeners. -/
theorem close_second_call_throws :
    (close readyHandle).1 = CloseOutcome.completed ∧
    (close (close readyHandle).2).1 = CloseOutcome.threwUnhandledError ∧
    (close (close readyHandle).2).2 = (close readyHandle).2 :=
  ⟨rfl, rfl, rfl⟩

end Kestrel
